import Mathlib

/-!
Verification of the focal-length-estimator utility (src/main.rs), the
two-frame interactive focal-length-search variant.  The program captures two
frames, runs AprilTag detection on each, guards on the detection counts, and
then loops: read a focal-length guess from stdin, estimate a pose for each
frame's single detection, and print the apparent distance and percentage
error against the two reference distances from the command line.

f64 arithmetic is modelled over ℝ.  The external collaborators (camera,
detector, pose estimator, stdin, float parsing) are modelled as parameters
or as explicitly documented shims; everything else is translated from
src/main.rs.
-/

namespace FocalLength

/-- Command-line arguments, from `struct Cli` in src/main.rs.  The clap
derive parses each field as a plain `f64` / `u32`; no field carries any
validation attribute, range restriction or custom parser. -/
structure Cli where
  tag_distance1 : ℝ
  tag_width : ℝ
  tag_distance2 : ℝ
  camera_index : ℕ
  with_delay : ℝ

/-- The clap-derived argument parser, as far as the numeric fields are
concerned: once each flag's text has parsed to a number, `Cli` is built from
the five values with no further check (in particular no sign or
non-zero check on the distances).  Failure can only come from the textual
parse of an individual flag, which is outside this model. -/
def cliParse (d1 w d2 : ℝ) (ci : ℕ) (delay : ℝ) : Option Cli :=
  some ⟨d1, w, d2, ci, delay⟩

/-- A tag detection as returned by the external detector.  Only the identity
matters for the control flow verified here; the corner data is consumed
solely by the external pose estimator. -/
structure Detection where
  id : ℕ
deriving DecidableEq, Repr

/-- Outcome of the detection-count guards that run between `detector.detect`
and the interactive loop (src/main.rs lines 100-115).  Each constructor is
one of the four early-return messages, plus `proceed`. -/
inductive GuardResult
  | multipleFirst    -- "Multiple tags found in first image"
  | multipleSecond   -- "Multiple tags found in second image"
  | noneFirst        -- "No tags found in first image"
  | noneSecond       -- "No tags found in second image"
  | proceed
deriving DecidableEq, Repr

/-- The guard sequence exactly as written in src/main.rs lines 100-115:
`detections1.len() > 1`, then `detections2.len() > 1`, then
`detections1.is_empty()`, then `detections2.is_empty()`; first hit returns. -/
def checkDetections (d1 d2 : List Detection) : GuardResult :=
  if d1.length > 1 then .multipleFirst
  else if d2.length > 1 then .multipleSecond
  else if d1.isEmpty then .noneFirst
  else if d2.isEmpty then .noneSecond
  else .proceed

/-- What main does after detection: each non-`proceed` guard prints its
message and `return Ok(())` without ever reaching the loop; `proceed` falls
through into `loop { ... }`. -/
inductive MainOutcome
  | earlyReturn (g : GuardResult)
  | enterLoop
deriving DecidableEq, Repr

/-- Main's control flow at the guards (src/main.rs lines 100-116). -/
def afterDetection (d1 d2 : List Detection) : MainOutcome :=
  match checkDetections d1 d2 with
  | .proceed => .enterLoop
  | g => .earlyReturn g

/-- The `TagParams` record handed to `estimate_tag_pose` (fields from the
apriltag crate, values as constructed in src/main.rs lines 126-131 and
147-152). -/
structure TagParams where
  tagsize : ℝ
  fx : ℝ
  fy : ℝ
  cx : ℝ
  cy : ℝ

/-- The `TagParams` value the loop builds for a frame of pixel dimensions
`w × h` from the tag width and the parsed guess `fx`:
`{ tagsize: tag_width, fx, fy: fx, cx: width/2, cy: height/2 }`. -/
noncomputable def tagParamsFor (tag_width fx : ℝ) (w h : ℕ) : TagParams :=
  { tagsize := tag_width, fx := fx, fy := fx, cx := (w : ℝ) / 2, cy := (h : ℝ) / 2 }

/-- A pose estimate; only its translation vector is read by the program. -/
structure Pose where
  translation : ℝ × ℝ × ℝ

/-- `(x.powi(2) + y.powi(2) + z.powi(2)).sqrt()` from src/main.rs lines
135-139 and 156-160. -/
noncomputable def apparentDistance (x y z : ℝ) : ℝ :=
  Real.sqrt (x ^ 2 + y ^ 2 + z ^ 2)

/-- `(apparent_distance - tag_distance).abs() / tag_distance * 100.0` from
src/main.rs lines 140-143 and 161-164. -/
noncomputable def errorPct (apparent dref : ℝ) : ℝ :=
  |apparent - dref| / dref * 100

/-- The state of standard input as the loop sees it: the lines not yet
consumed.  `[]` models a closed / exhausted stream. -/
structure InputState where
  pending : List String
deriving DecidableEq, Repr

/-- `input.clear()` followed by `stdin.read_line(&mut input)?`, as Rust's
`BufRead::read_line` behaves: at end of input it returns `Ok(0)` and appends
nothing, so the freshly cleared buffer stays empty; it does NOT return an
error, so the `?` does not fire.  I/O errors (the only way `?` propagates)
are not modelled. -/
def readLineCleared : InputState → String × InputState
  | ⟨[]⟩ => ("", ⟨[]⟩)
  | ⟨l :: ls⟩ => (l, ⟨ls⟩)

/-- One console line printed inside the loop body.  Real-number payloads
stand for the formatted numbers. -/
inductive OutLine
  | failedParse             -- "Failed to read f64" (stderr)
  | failedPose              -- "Failed to estimate pose"
  | apparent1 (d : ℝ)       -- "Apparent distance 1: {:.2}m"
  | error1 (e : ℝ)          -- "Error 1: {:.1}%"
  | apparent2 (d : ℝ)       -- "Apparent distance 2: {:.2}m"
  | error2 (e : ℝ)          -- "Error 2: {:.1}%"

/-- One iteration of `loop { ... }` (src/main.rs lines 116-165), translated
branch by branch.  `est` is the external `estimate_tag_pose`; `parse`
models the composite `input.trim().parse::<f64>()` — Rust's whitespace trim
followed by the standard float parse, applied to the raw buffer contents.
Both are parameters because they live outside this repository.  The result
is the list of lines printed this iteration and the input state the next
iteration starts from; `none` marks a panic of the `.last().unwrap()`
calls.  Every non-`none` result is a `continue`: the loop body contains no
`break` or `return`. -/
noncomputable def loopStep (detections1 detections2 : List Detection)
    (est : Detection → TagParams → Option Pose)
    (parse : String → Option ℝ)
    (cli : Cli) (w1 h1 w2 h2 : ℕ)
    (st : InputState) : Option (List OutLine × InputState) :=
  let r := readLineCleared st
  match parse r.1 with
  | none => some ([.failedParse], r.2)
  | some fx =>
    match detections1.getLast? with
    | none => none
    | some detection1 =>
      match est detection1 (tagParamsFor cli.tag_width fx w1 h1) with
      | none => some ([.failedPose], r.2)
      | some pose1 =>
        let d1 := apparentDistance pose1.translation.1 pose1.translation.2.1
          pose1.translation.2.2
        let out1 : List OutLine := [.apparent1 d1, .error1 (errorPct d1 cli.tag_distance1)]
        match detections2.getLast? with
        | none => none
        | some detection2 =>
          match est detection2 (tagParamsFor cli.tag_width fx w2 h2) with
          | none => some (out1 ++ [.failedPose], r.2)
          | some pose2 =>
            let d2 := apparentDistance pose2.translation.1 pose2.translation.2.1
              pose2.translation.2.2
            some (out1 ++ [.apparent2 d2, .error2 (errorPct d2 cli.tag_distance2)], r.2)

/-- The camera / frame-processing actions of main before the loop, for the
resource-lifetime claims.  `k` is the capture number (1 or 2). -/
inductive Event
  | cameraNew (k : ℕ)       -- `Camera::new(index, requested)?`
  | openStream (k : ℕ)      -- `camera.open_stream()?`
  | frameCapture (k : ℕ)    -- `camera.frame()?`
  | cameraDrop (k : ℕ)      -- `drop(camera)`
  | decode (k : ℕ)          -- `frame.decode_image::<LumaFormat>()?`
  | savePng (k : ℕ)         -- `decoded.save("testk.png")?`
  | detect (k : ℕ)          -- `detector.detect(&imgk)`
  | loopEnter               -- falling through the guards into `loop`
deriving DecidableEq, Repr

/-- The straight-line order of those actions on the success path of main
(src/main.rs lines 64-116): first camera opened, streamed, one frame taken,
dropped; the frame decoded and saved; the same again for the second camera;
then both detections run and the loop is entered. -/
def mainTrace : List Event :=
  [.cameraNew 1, .openStream 1, .frameCapture 1, .cameraDrop 1, .decode 1, .savePng 1,
   .cameraNew 2, .openStream 2, .frameCapture 2, .cameraDrop 2, .decode 2, .savePng 2,
   .detect 1, .detect 2, .loopEnter]

/-- Position of an event in the trace. -/
def evIdx (e : Event) : ℕ := mainTrace.indexOf e

/-- Whether camera `k` is live when event `e` happens: `e` lies between the
camera's `Camera::new` and its `drop`, inclusive. -/
def liveDuring (k : ℕ) (e : Event) : Bool :=
  decide (evIdx (.cameraNew k) ≤ evIdx e) && decide (evIdx e ≤ evIdx (.cameraDrop k))

/-! ### Helper lemmas -/

lemma apparentDistance_eq_norm (x y z : ℝ) :
    apparentDistance x y z = ‖(WithLp.equiv 2 (Fin 3 → ℝ)).symm ![x, y, z]‖ := by
  rw [EuclideanSpace.norm_eq]
  simp [apparentDistance, Fin.sum_univ_three, Real.norm_eq_abs, sq_abs]

lemma loopStep_success (a b : Detection)
    (est : Detection → TagParams → Option Pose) (parse : String → Option ℝ)
    (cli : Cli) (w1 h1 w2 h2 : ℕ) (s : String) (ls : List String) (fx : ℝ)
    (p1 p2 : Pose)
    (hp : parse s = some fx)
    (he1 : est a (tagParamsFor cli.tag_width fx w1 h1) = some p1)
    (he2 : est b (tagParamsFor cli.tag_width fx w2 h2) = some p2) :
    loopStep [a] [b] est parse cli w1 h1 w2 h2 ⟨s :: ls⟩ =
      some ([OutLine.apparent1
               (apparentDistance p1.translation.1 p1.translation.2.1 p1.translation.2.2),
             OutLine.error1
               (errorPct (apparentDistance p1.translation.1 p1.translation.2.1 p1.translation.2.2)
                 cli.tag_distance1),
             OutLine.apparent2
               (apparentDistance p2.translation.1 p2.translation.2.1 p2.translation.2.2),
             OutLine.error2
               (errorPct (apparentDistance p2.translation.1 p2.translation.2.1 p2.translation.2.2)
                 cli.tag_distance2)], ⟨ls⟩) := by
  simp [loopStep, readLineCleared, hp, he1, he2]

lemma checkDetections_proceed_iff (d1 d2 : List Detection) :
    checkDetections d1 d2 = GuardResult.proceed ↔ d1.length = 1 ∧ d2.length = 1 := by
  rcases d1 with _ | ⟨a, _ | ⟨a', t1⟩⟩ <;> rcases d2 with _ | ⟨b, _ | ⟨b', t2⟩⟩ <;>
    simp [checkDetections]

/-! ### Claims -/

/-- C1: the apparent distance the loop computes and prints for a pose
translation (x, y, z) is the Euclidean norm sqrt(x² + y² + z²): the source
expression `(x.powi(2) + y.powi(2) + z.powi(2)).sqrt()` equals Mathlib's
Euclidean norm on ℝ³, the loop prints exactly that value for the
translations the pose estimator returns, and at translation (3, 4, 0) it is
exactly 5. -/
theorem C1_apparent_distance_is_euclidean_norm :
    (∀ x y z : ℝ,
      apparentDistance x y z = ‖(WithLp.equiv 2 (Fin 3 → ℝ)).symm ![x, y, z]‖) ∧
    apparentDistance 3 4 0 = 5 ∧
    ∀ (a b : Detection) (est : Detection → TagParams → Option Pose)
      (parse : String → Option ℝ) (cli : Cli) (w1 h1 w2 h2 : ℕ)
      (s : String) (ls : List String) (fx : ℝ) (p1 p2 : Pose),
      parse s = some fx →
      est a (tagParamsFor cli.tag_width fx w1 h1) = some p1 →
      est b (tagParamsFor cli.tag_width fx w2 h2) = some p2 →
      loopStep [a] [b] est parse cli w1 h1 w2 h2 ⟨s :: ls⟩ =
        some ([OutLine.apparent1
                 ‖(WithLp.equiv 2 (Fin 3 → ℝ)).symm
                    ![p1.translation.1, p1.translation.2.1, p1.translation.2.2]‖,
               OutLine.error1
                 (errorPct
                   (apparentDistance p1.translation.1 p1.translation.2.1 p1.translation.2.2)
                   cli.tag_distance1),
               OutLine.apparent2
                 ‖(WithLp.equiv 2 (Fin 3 → ℝ)).symm
                    ![p2.translation.1, p2.translation.2.1, p2.translation.2.2]‖,
               OutLine.error2
                 (errorPct
                   (apparentDistance p2.translation.1 p2.translation.2.1 p2.translation.2.2)
                   cli.tag_distance2)], ⟨ls⟩) := by
  refine ⟨apparentDistance_eq_norm, ?_, ?_⟩
  · unfold apparentDistance
    rw [show (3:ℝ) ^ 2 + 4 ^ 2 + 0 ^ 2 = 5 ^ 2 by norm_num]
    exact Real.sqrt_sq (by norm_num)
  · intro a b est parse cli w1 h1 w2 h2 s ls fx p1 p2 hp hest1 hest2
    rw [loopStep_success a b est parse cli w1 h1 w2 h2 s ls fx p1 p2 hp hest1 hest2,
      apparentDistance_eq_norm, apparentDistance_eq_norm]

/-- C1 witness: a concrete iteration in which both pose estimates succeed
with translation (3, 4, 0); the printed apparent distances are the
Euclidean norms of that vector. -/
theorem C1_witness :
    loopStep [⟨0⟩] [⟨1⟩] (fun _ _ => some ⟨(3, 4, 0)⟩) (fun _ => some 100)
        ⟨1, 1, 2, 0, 0⟩ 640 480 800 600 ⟨["100"]⟩ =
      some ([OutLine.apparent1 ‖(WithLp.equiv 2 (Fin 3 → ℝ)).symm ![(3:ℝ), 4, 0]‖,
             OutLine.error1 (errorPct (apparentDistance 3 4 0) 1),
             OutLine.apparent2 ‖(WithLp.equiv 2 (Fin 3 → ℝ)).symm ![(3:ℝ), 4, 0]‖,
             OutLine.error2 (errorPct (apparentDistance 3 4 0) 2)], ⟨[]⟩) :=
  C1_apparent_distance_is_euclidean_norm.2.2 ⟨0⟩ ⟨1⟩ (fun _ _ => some ⟨(3, 4, 0)⟩)
    (fun _ => some 100) ⟨1, 1, 2, 0, 0⟩ 640 480 800 600 "100" [] 100
    ⟨(3, 4, 0)⟩ ⟨(3, 4, 0)⟩ rfl rfl rfl

/-- C2: the percentage error printed for each frame is
|apparent − D_ref| / D_ref · 100, with D_ref = tag_distance1 for frame 1
and tag_distance2 for frame 2; at (5, 5) it is 0 and at (5.5, 5) it is
10. -/
theorem C2_error_pct_formula :
    errorPct 5 5 = 0 ∧ errorPct 5.5 5 = 10 ∧
    (∀ apparent dref : ℝ, errorPct apparent dref = |apparent - dref| / dref * 100) ∧
    ∀ (a b : Detection) (est : Detection → TagParams → Option Pose)
      (parse : String → Option ℝ) (cli : Cli) (w1 h1 w2 h2 : ℕ)
      (s : String) (ls : List String) (fx : ℝ) (p1 p2 : Pose),
      parse s = some fx →
      est a (tagParamsFor cli.tag_width fx w1 h1) = some p1 →
      est b (tagParamsFor cli.tag_width fx w2 h2) = some p2 →
      loopStep [a] [b] est parse cli w1 h1 w2 h2 ⟨s :: ls⟩ =
        some ([OutLine.apparent1
                 (apparentDistance p1.translation.1 p1.translation.2.1 p1.translation.2.2),
               OutLine.error1
                 (|apparentDistance p1.translation.1 p1.translation.2.1 p1.translation.2.2
                     - cli.tag_distance1| / cli.tag_distance1 * 100),
               OutLine.apparent2
                 (apparentDistance p2.translation.1 p2.translation.2.1 p2.translation.2.2),
               OutLine.error2
                 (|apparentDistance p2.translation.1 p2.translation.2.1 p2.translation.2.2
                     - cli.tag_distance2| / cli.tag_distance2 * 100)], ⟨ls⟩) := by
  refine ⟨?_, ?_, fun _ _ => rfl, ?_⟩
  · simp [errorPct]
  · unfold errorPct
    rw [abs_of_nonneg (by norm_num : (0:ℝ) ≤ 5.5 - 5)]
    norm_num
  · intro a b est parse cli w1 h1 w2 h2 s ls fx p1 p2 hp hest1 hest2
    exact loopStep_success a b est parse cli w1 h1 w2 h2 s ls fx p1 p2 hp hest1 hest2

/-- C2 witness: a concrete iteration with reference distances 5 and 2 in
which both pose estimates succeed with translation (3, 4, 0). -/
theorem C2_witness :
    loopStep [⟨2⟩] [⟨3⟩] (fun _ _ => some ⟨(3, 4, 0)⟩) (fun _ => some 250)
        ⟨5, 1, 2, 0, 0⟩ 320 240 320 240 ⟨["250"]⟩ =
      some ([OutLine.apparent1 (apparentDistance 3 4 0),
             OutLine.error1 (|apparentDistance 3 4 0 - 5| / 5 * 100),
             OutLine.apparent2 (apparentDistance 3 4 0),
             OutLine.error2 (|apparentDistance 3 4 0 - 2| / 2 * 100)], ⟨[]⟩) :=
  C2_error_pct_formula.2.2.2 ⟨2⟩ ⟨3⟩ (fun _ _ => some ⟨(3, 4, 0)⟩)
    (fun _ => some 250) ⟨5, 1, 2, 0, 0⟩ 320 240 320 240 "250" [] 250
    ⟨(3, 4, 0)⟩ ⟨(3, 4, 0)⟩ rfl rfl rfl

/-- C3 counterexample: with an empty first detection list and a two-element
second list, the program reports "Multiple tags found in second image", not
that no tag was found — the multiple-tag checks run before the emptiness
checks — so "if either list is empty the program reports that no tag was
found" fails at this input. -/
theorem C3_counterexample :
    ([] : List Detection).isEmpty = true ∧
    checkDetections [] [⟨1⟩, ⟨2⟩] = GuardResult.multipleSecond ∧
    checkDetections [] [⟨1⟩, ⟨2⟩] ≠ GuardResult.noneFirst ∧
    checkDetections [] [⟨1⟩, ⟨2⟩] ≠ GuardResult.noneSecond ∧
    afterDetection [] [⟨1⟩, ⟨2⟩] = MainOutcome.earlyReturn GuardResult.multipleSecond := by
  decide

/-- C3 (amended): if either list has more than one element the program
reports that multiple tags were found; otherwise, if either list is empty,
it reports that no tag was found; in every such case it returns without
entering the interactive loop; only when both lists contain exactly one
detection does it proceed. -/
theorem C3_guard_policy (d1 d2 : List Detection) :
    (afterDetection d1 d2 = MainOutcome.enterLoop ↔ d1.length = 1 ∧ d2.length = 1) ∧
    ((checkDetections d1 d2 = GuardResult.multipleFirst ∨
      checkDetections d1 d2 = GuardResult.multipleSecond) ↔
      1 < d1.length ∨ 1 < d2.length) ∧
    ((checkDetections d1 d2 = GuardResult.noneFirst ∨
      checkDetections d1 d2 = GuardResult.noneSecond) ↔
      d1.length ≤ 1 ∧ d2.length ≤ 1 ∧ (d1 = [] ∨ d2 = [])) ∧
    (checkDetections d1 d2 ≠ GuardResult.proceed ↔
      afterDetection d1 d2 = MainOutcome.earlyReturn (checkDetections d1 d2)) := by
  rcases d1 with _ | ⟨a, _ | ⟨a', t1⟩⟩ <;> rcases d2 with _ | ⟨b, _ | ⟨b', t2⟩⟩ <;>
    simp [checkDetections, afterDetection]

/-- C3 witness: the guard characterization evaluated at one singleton list
and one empty list. -/
theorem C3_witness :
    (afterDetection [⟨7⟩] [] = MainOutcome.enterLoop ↔
      ([⟨7⟩] : List Detection).length = 1 ∧ ([] : List Detection).length = 1) ∧
    ((checkDetections [⟨7⟩] [] = GuardResult.multipleFirst ∨
      checkDetections [⟨7⟩] [] = GuardResult.multipleSecond) ↔
      1 < ([⟨7⟩] : List Detection).length ∨ 1 < ([] : List Detection).length) ∧
    ((checkDetections [⟨7⟩] [] = GuardResult.noneFirst ∨
      checkDetections [⟨7⟩] [] = GuardResult.noneSecond) ↔
      ([⟨7⟩] : List Detection).length ≤ 1 ∧ ([] : List Detection).length ≤ 1 ∧
        (([⟨7⟩] : List Detection) = [] ∨ ([] : List Detection) = [])) ∧
    (checkDetections [⟨7⟩] [] ≠ GuardResult.proceed ↔
      afterDetection [⟨7⟩] [] = MainOutcome.earlyReturn (checkDetections [⟨7⟩] [])) :=
  C3_guard_policy [⟨7⟩] []

/-- C4 (actual behavior at end of input): when standard input is closed,
`read_line` returns Ok(0) and leaves the freshly cleared buffer empty, so
the `?` does not fire; the parse of the empty string fails, the iteration
prints "Failed to read f64" and continues with the input state unchanged —
the loop does not end, it repeats this iteration forever. -/
theorem C4_eof_continues_loop (d1 d2 : List Detection)
    (est : Detection → TagParams → Option Pose) (parse : String → Option ℝ)
    (hparse : parse "" = none) (cli : Cli) (w1 h1 w2 h2 : ℕ) :
    loopStep d1 d2 est parse cli w1 h1 w2 h2 ⟨[]⟩ =
      some ([OutLine.failedParse], ⟨[]⟩) := by
  simp [loopStep, readLineCleared, hparse]

/-- C4 witness: a concrete instantiation with a parse function that rejects
the empty string, as Rust's `"".trim().parse::<f64>()` does. -/
theorem C4_witness :
    (fun _ : String => (none : Option ℝ)) "" = none ∧
    loopStep [⟨0⟩] [⟨1⟩] (fun _ _ => none) (fun _ => none) ⟨1, 1, 1, 0, 0⟩ 1 1 1 1 ⟨[]⟩ =
      some ([OutLine.failedParse], ⟨[]⟩) :=
  ⟨rfl, C4_eof_continues_loop [⟨0⟩] [⟨1⟩] (fun _ _ => none) (fun _ => none) rfl
    ⟨1, 1, 1, 0, 0⟩ 1 1 1 1⟩

/-- C5 counterexample: a zero first reference distance is not rejected at
the program boundary — `cliParse` accepts it — and a loop iteration with
successful pose estimates reaches the percentage-error formula with
D_ref = 0, so the division by D_ref does divide by zero. -/
theorem C5_counterexample :
    cliParse 0 1 1 0 0 = some ⟨0, 1, 1, 0, 0⟩ ∧
    loopStep [⟨0⟩] [⟨1⟩] (fun _ _ => some ⟨(3, 4, 0)⟩) (fun _ => some 100)
        ⟨0, 1, 1, 0, 0⟩ 640 480 640 480 ⟨["100"]⟩ =
      some ([OutLine.apparent1 (apparentDistance 3 4 0),
             OutLine.error1 (errorPct (apparentDistance 3 4 0) 0),
             OutLine.apparent2 (apparentDistance 3 4 0),
             OutLine.error2 (errorPct (apparentDistance 3 4 0) 1)], ⟨[]⟩) :=
  ⟨rfl, loopStep_success ⟨0⟩ ⟨1⟩ (fun _ _ => some ⟨(3, 4, 0)⟩) (fun _ => some 100)
    ⟨0, 1, 1, 0, 0⟩ 640 480 640 480 "100" [] 100 ⟨(3, 4, 0)⟩ ⟨(3, 4, 0)⟩ rfl rfl rfl⟩

/-- C5 (amended): the program performs no boundary validation of the
reference distances: the CLI accepts any value, including zero and negative
ones, and the loop applies the percentage-error formula with whatever
reference distances were supplied, unconditionally. -/
theorem C5_no_boundary_validation (d1v w d2v : ℝ) (ci : ℕ) (wd : ℝ) :
    cliParse d1v w d2v ci wd = some ⟨d1v, w, d2v, ci, wd⟩ ∧
    ∀ (a b : Detection) (est : Detection → TagParams → Option Pose)
      (parse : String → Option ℝ) (w1 h1 w2 h2 : ℕ) (s : String) (ls : List String)
      (fx : ℝ) (p1 p2 : Pose),
      parse s = some fx →
      est a (tagParamsFor w fx w1 h1) = some p1 →
      est b (tagParamsFor w fx w2 h2) = some p2 →
      loopStep [a] [b] est parse ⟨d1v, w, d2v, ci, wd⟩ w1 h1 w2 h2 ⟨s :: ls⟩ =
        some ([OutLine.apparent1
                 (apparentDistance p1.translation.1 p1.translation.2.1 p1.translation.2.2),
               OutLine.error1
                 (errorPct
                   (apparentDistance p1.translation.1 p1.translation.2.1 p1.translation.2.2)
                   d1v),
               OutLine.apparent2
                 (apparentDistance p2.translation.1 p2.translation.2.1 p2.translation.2.2),
               OutLine.error2
                 (errorPct
                   (apparentDistance p2.translation.1 p2.translation.2.1 p2.translation.2.2)
                   d2v)], ⟨ls⟩) := by
  refine ⟨rfl, ?_⟩
  intro a b est parse w1 h1 w2 h2 s ls fx p1 p2 hp he1 he2
  exact loopStep_success a b est parse ⟨d1v, w, d2v, ci, wd⟩ w1 h1 w2 h2 s ls fx p1 p2
    hp he1 he2

/-- C5 witness: the amended statement evaluated at a zero first reference
distance and a negative second one, with translation (1, 2, 2). -/
theorem C5_witness :
    cliParse 0 2 (-3) 5 1 = some ⟨0, 2, -3, 5, 1⟩ ∧
    loopStep [⟨4⟩] [⟨5⟩] (fun _ _ => some ⟨(1, 2, 2)⟩) (fun _ => some 42)
        ⟨0, 2, -3, 5, 1⟩ 320 200 320 200 ⟨["42"]⟩ =
      some ([OutLine.apparent1 (apparentDistance 1 2 2),
             OutLine.error1 (errorPct (apparentDistance 1 2 2) 0),
             OutLine.apparent2 (apparentDistance 1 2 2),
             OutLine.error2 (errorPct (apparentDistance 1 2 2) (-3))], ⟨[]⟩) :=
  ⟨(C5_no_boundary_validation 0 2 (-3) 5 1).1,
   (C5_no_boundary_validation 0 2 (-3) 5 1).2 ⟨4⟩ ⟨5⟩ (fun _ _ => some ⟨(1, 2, 2)⟩)
     (fun _ => some 42) 320 200 320 200 "42" [] 42 ⟨(1, 2, 2)⟩ ⟨(1, 2, 2)⟩ rfl rfl rfl⟩

/-- C6: every `TagParams` the loop builds has fx = the parsed guess,
fy = fx, cx = image width / 2, cy = image height / 2 and tagsize = the CLI
tag width; moreover the loop's behavior depends on the pose estimator only
through its values at parameters of exactly that shape, so fx and fy are
never unequal and cx, cy never deviate from the half image dimensions. -/
theorem C6_intrinsics_square_pixel_centered :
    (∀ (tw g : ℝ) (w h : ℕ),
      (tagParamsFor tw g w h).fx = g ∧
      (tagParamsFor tw g w h).fy = (tagParamsFor tw g w h).fx ∧
      (tagParamsFor tw g w h).cx = (w : ℝ) / 2 ∧
      (tagParamsFor tw g w h).cy = (h : ℝ) / 2 ∧
      (tagParamsFor tw g w h).tagsize = tw) ∧
    ∀ (d1 d2 : List Detection) (est est' : Detection → TagParams → Option Pose)
      (parse : String → Option ℝ) (cli : Cli) (w1 h1 w2 h2 : ℕ) (st : InputState),
      (∀ det p, p.fy = p.fx → p.tagsize = cli.tag_width →
        ((p.cx = (w1 : ℝ) / 2 ∧ p.cy = (h1 : ℝ) / 2) ∨
         (p.cx = (w2 : ℝ) / 2 ∧ p.cy = (h2 : ℝ) / 2)) →
        est det p = est' det p) →
      loopStep d1 d2 est parse cli w1 h1 w2 h2 st =
        loopStep d1 d2 est' parse cli w1 h1 w2 h2 st := by
  refine ⟨fun tw g w h => ⟨rfl, rfl, rfl, rfl, rfl⟩, ?_⟩
  intro d1 d2 est est' parse cli w1 h1 w2 h2 st hagree
  cases hp : parse (readLineCleared st).1 with
  | none => simp [loopStep, hp]
  | some fx =>
    cases hl1 : d1.getLast? with
    | none => simp [loopStep, hp, hl1]
    | some det1 =>
      have e1 : est det1 (tagParamsFor cli.tag_width fx w1 h1) =
          est' det1 (tagParamsFor cli.tag_width fx w1 h1) :=
        hagree det1 _ rfl rfl (Or.inl ⟨rfl, rfl⟩)
      cases hl2 : d2.getLast? with
      | none => simp [loopStep, hp, hl1, hl2, e1]
      | some det2 =>
        have e2 : est det2 (tagParamsFor cli.tag_width fx w2 h2) =
            est' det2 (tagParamsFor cli.tag_width fx w2 h2) :=
          hagree det2 _ rfl rfl (Or.inr ⟨rfl, rfl⟩)
        simp [loopStep, hp, hl1, hl2, e1, e2]

/-- C6 witness: the estimator-dependence statement applied to two
identical concrete estimators and one concrete iteration. -/
theorem C6_witness :
    loopStep [⟨0⟩] [⟨1⟩] (fun _ _ => some ⟨(0, 0, 1)⟩) (fun _ => some 7)
        ⟨1, 1, 1, 0, 0⟩ 64 48 64 48 ⟨["7"]⟩ =
      loopStep [⟨0⟩] [⟨1⟩] (fun _ _ => some ⟨(0, 0, 1)⟩) (fun _ => some 7)
        ⟨1, 1, 1, 0, 0⟩ 64 48 64 48 ⟨["7"]⟩ :=
  C6_intrinsics_square_pixel_centered.2 [⟨0⟩] [⟨1⟩]
    (fun _ _ => some ⟨(0, 0, 1)⟩) (fun _ _ => some ⟨(0, 0, 1)⟩) (fun _ => some 7)
    ⟨1, 1, 1, 0, 0⟩ 64 48 64 48 ⟨["7"]⟩ (fun _ _ _ _ _ => rfl)

/-- C7: a guess line that fails to parse, or a pose estimation that returns
no pose, prints a message and the iteration ends in a `continue`; and for
every iteration that continues, the only thing it passes to the next
iteration is the advanced input stream — the detections, CLI values and
image dimensions are immutable parameters. -/
theorem C7_failures_continue (d1 d2 : List Detection)
    (est : Detection → TagParams → Option Pose) (parse : String → Option ℝ)
    (cli : Cli) (w1 h1 w2 h2 : ℕ) (s : String) (ls : List String) :
    (parse s = none →
      loopStep d1 d2 est parse cli w1 h1 w2 h2 ⟨s :: ls⟩ =
        some ([OutLine.failedParse], ⟨ls⟩)) ∧
    (∀ fx a, parse s = some fx → d1.getLast? = some a →
      est a (tagParamsFor cli.tag_width fx w1 h1) = none →
      loopStep d1 d2 est parse cli w1 h1 w2 h2 ⟨s :: ls⟩ =
        some ([OutLine.failedPose], ⟨ls⟩)) ∧
    (∀ fx a b p1, parse s = some fx → d1.getLast? = some a → d2.getLast? = some b →
      est a (tagParamsFor cli.tag_width fx w1 h1) = some p1 →
      est b (tagParamsFor cli.tag_width fx w2 h2) = none →
      ∃ out1, loopStep d1 d2 est parse cli w1 h1 w2 h2 ⟨s :: ls⟩ =
        some (out1 ++ [OutLine.failedPose], ⟨ls⟩)) ∧
    (∀ (st : InputState) (r : List OutLine × InputState),
      loopStep d1 d2 est parse cli w1 h1 w2 h2 st = some r →
      r.2 = (readLineCleared st).2) := by
  refine ⟨?_, ?_, ?_, ?_⟩
  · intro hp
    simp [loopStep, readLineCleared, hp]
  · intro fx a hp hl he
    simp [loopStep, readLineCleared, hp, hl, he]
  · intro fx a b p1 hp hl1 hl2 he1 he2
    refine ⟨[OutLine.apparent1
               (apparentDistance p1.translation.1 p1.translation.2.1 p1.translation.2.2),
             OutLine.error1
               (errorPct (apparentDistance p1.translation.1 p1.translation.2.1
                 p1.translation.2.2) cli.tag_distance1)], ?_⟩
    simp [loopStep, readLineCleared, hp, hl1, hl2, he1, he2]
  · intro st r h
    simp only [loopStep] at h
    rcases hp : parse (readLineCleared st).1 with _ | fx <;>
      simp only [hp, Option.some.injEq] at h
    · subst h; rfl
    rcases hl1 : d1.getLast? with _ | det1 <;> simp only [hl1] at h
    · exact absurd h (by simp)
    rcases he1 : est det1 (tagParamsFor cli.tag_width fx w1 h1) with _ | p1 <;>
      simp only [he1, Option.some.injEq] at h
    · subst h; rfl
    rcases hl2 : d2.getLast? with _ | det2 <;> simp only [hl2] at h
    · exact absurd h (by simp)
    rcases he2 : est det2 (tagParamsFor cli.tag_width fx w2 h2) with _ | p2 <;>
      simp only [he2, Option.some.injEq] at h <;> (subst h; rfl)

/-- C7 witness: a parse failure on a concrete iteration continues with only
the input stream advanced. -/
theorem C7_witness :
    loopStep [⟨0⟩] [⟨1⟩] (fun _ _ => none) (fun _ => none) ⟨1, 1, 1, 0, 0⟩ 2 2 2 2
        ⟨["nonsense"]⟩ = some ([OutLine.failedParse], ⟨[]⟩) :=
  (C7_failures_continue [⟨0⟩] [⟨1⟩] (fun _ _ => none) (fun _ => none)
    ⟨1, 1, 1, 0, 0⟩ 2 2 2 2 "nonsense" []).1 rfl

/-- C8: each camera is captured from exactly once; the only events during
which a camera is live are its own acquire / open / capture / release; the
release precedes the frame's decode, save and detection; the first camera
is released before the second is acquired; and both are released before the
interactive loop is entered. -/
theorem C8_camera_scoped_lifetime :
    mainTrace.count (Event.frameCapture 1) = 1 ∧
    mainTrace.count (Event.frameCapture 2) = 1 ∧
    mainTrace.filter (liveDuring 1) =
      [Event.cameraNew 1, Event.openStream 1, Event.frameCapture 1, Event.cameraDrop 1] ∧
    mainTrace.filter (liveDuring 2) =
      [Event.cameraNew 2, Event.openStream 2, Event.frameCapture 2, Event.cameraDrop 2] ∧
    evIdx (Event.cameraDrop 1) < evIdx (Event.decode 1) ∧
    evIdx (Event.decode 1) < evIdx (Event.savePng 1) ∧
    evIdx (Event.cameraDrop 1) < evIdx (Event.detect 1) ∧
    evIdx (Event.cameraDrop 2) < evIdx (Event.decode 2) ∧
    evIdx (Event.decode 2) < evIdx (Event.savePng 2) ∧
    evIdx (Event.cameraDrop 2) < evIdx (Event.detect 2) ∧
    evIdx (Event.cameraDrop 1) < evIdx (Event.cameraNew 2) ∧
    evIdx (Event.cameraDrop 1) < evIdx Event.loopEnter ∧
    evIdx (Event.cameraDrop 2) < evIdx Event.loopEnter := by
  decide

/-- C9: once the guards have let control reach the loop, both detection
lists have exactly one element, so the `detections1.last().unwrap()` and
`detections2.last().unwrap()` calls inside the loop never panic: no loop
iteration, whatever the operator types and whatever the pose estimator
returns, reaches the panic outcome. -/
theorem C9_last_unwrap_never_panics (d1 d2 : List Detection)
    (h : checkDetections d1 d2 = GuardResult.proceed)
    (est : Detection → TagParams → Option Pose) (parse : String → Option ℝ)
    (cli : Cli) (w1 h1 w2 h2 : ℕ) (st : InputState) :
    d1.length = 1 ∧ d2.length = 1 ∧
    (loopStep d1 d2 est parse cli w1 h1 w2 h2 st).isSome = true := by
  obtain ⟨hl1, hl2⟩ := (checkDetections_proceed_iff d1 d2).mp h
  obtain ⟨a, rfl⟩ := List.length_eq_one.mp hl1
  obtain ⟨b, rfl⟩ := List.length_eq_one.mp hl2
  refine ⟨rfl, rfl, ?_⟩
  cases hp : parse (readLineCleared st).1 with
  | none => simp [loopStep, hp]
  | some fx =>
    cases he1 : est a (tagParamsFor cli.tag_width fx w1 h1) with
    | none => simp [loopStep, hp, he1]
    | some p1 =>
      cases he2 : est b (tagParamsFor cli.tag_width fx w2 h2) with
      | none => simp [loopStep, hp, he1, he2]
      | some p2 => simp [loopStep, hp, he1, he2]

/-- C9 witness: the guards pass on two concrete singleton detection lists
and the loop iteration completes without a panic. -/
theorem C9_witness :
    checkDetections [⟨3⟩] [⟨4⟩] = GuardResult.proceed ∧
    (([⟨3⟩] : List Detection).length = 1 ∧ ([⟨4⟩] : List Detection).length = 1 ∧
      (loopStep [⟨3⟩] [⟨4⟩] (fun _ _ => none) (fun _ => none)
        ⟨1, 1, 1, 0, 0⟩ 3 3 3 3 ⟨["x"]⟩).isSome = true) :=
  ⟨by decide, C9_last_unwrap_never_panics [⟨3⟩] [⟨4⟩] (by decide)
    (fun _ _ => none) (fun _ => none) ⟨1, 1, 1, 0, 0⟩ 3 3 3 3 ⟨["x"]⟩⟩

/-- C10: output within one iteration is not atomic across the two frames:
when frame 1's pose estimation fails, the iteration prints only the failure
message and nothing for frame 2; when frame 1 succeeds and frame 2's pose
estimation fails, frame 1's apparent distance and error percentage are
printed before the failure message — a partial result. -/
theorem C10_partial_output (a b : Detection)
    (est : Detection → TagParams → Option Pose) (parse : String → Option ℝ)
    (cli : Cli) (w1 h1 w2 h2 : ℕ) (s : String) (ls : List String) (fx : ℝ)
    (hp : parse s = some fx) :
    (est a (tagParamsFor cli.tag_width fx w1 h1) = none →
      loopStep [a] [b] est parse cli w1 h1 w2 h2 ⟨s :: ls⟩ =
        some ([OutLine.failedPose], ⟨ls⟩)) ∧
    (∀ p1, est a (tagParamsFor cli.tag_width fx w1 h1) = some p1 →
      est b (tagParamsFor cli.tag_width fx w2 h2) = none →
      loopStep [a] [b] est parse cli w1 h1 w2 h2 ⟨s :: ls⟩ =
        some ([OutLine.apparent1
                 (apparentDistance p1.translation.1 p1.translation.2.1 p1.translation.2.2),
               OutLine.error1
                 (errorPct
                   (apparentDistance p1.translation.1 p1.translation.2.1 p1.translation.2.2)
                   cli.tag_distance1),
               OutLine.failedPose], ⟨ls⟩)) := by
  constructor
  · intro he1
    simp [loopStep, readLineCleared, hp, he1]
  · intro p1 he1 he2
    simp [loopStep, readLineCleared, hp, he1, he2]

/-- C10 witness: frame 1 succeeds with translation (0, 3, 4) while frame 2
fails, so the iteration prints frame 1's distance and error followed by the
failure message. -/
theorem C10_witness :
    loopStep [⟨8⟩] [⟨9⟩]
        (fun det _ => if det.id = 8 then some ⟨(0, 3, 4)⟩ else none)
        (fun _ => some 55) ⟨5, 1, 5, 0, 0⟩ 100 100 100 100 ⟨["55"]⟩ =
      some ([OutLine.apparent1 (apparentDistance 0 3 4),
             OutLine.error1 (errorPct (apparentDistance 0 3 4) 5),
             OutLine.failedPose], ⟨[]⟩) :=
  (C10_partial_output ⟨8⟩ ⟨9⟩
      (fun det _ => if det.id = 8 then some ⟨(0, 3, 4)⟩ else none)
      (fun _ => some 55) ⟨5, 1, 5, 0, 0⟩ 100 100 100 100 "55" [] 55 rfl).2
    ⟨(0, 3, 4)⟩ rfl rfl

end FocalLength
